import Mathlib

/-!
# Verification of the markitdown web conversion orchestration core

Shallow embedding of the conversion orchestration logic of the repository:
* the browser shape (`App.vue`): `loadPyodideEnvironment` (environment
  provisioner) and `startConversion` (conversion invoker over the Pyodide
  in-memory filesystem);
* the server shape (the Nuxt/h3 event handler): multipart upload handling,
  format-hint derivation, conversion, response mapping and the `finally`
  cleanup block;
* the shared UI helpers `formatSize` and the suggested-output-filename
  derivation.

JavaScript strings that undergo character-level manipulation
(`split`/`join`/`pop`) are embedded as `List Char`; strings used only as
opaque messages or whole paths stay `String`.  The filesystem of the
execution environment is a list of paths.  The behaviour of the external
converter (a black box) is a parameter of each model.
-/

namespace Markitdown

/-! ## Browser shape: conversion invoker (`App.vue`, `startConversion`) -/

/-- Outcome of the external converter call `convertFunc(tempPath)`:
either it returns a (possibly empty) text, or it raises. -/
inductive ConvOutcome
  | returns (text : String)
  | throws (msg : String)
deriving DecidableEq, Repr

/-- The result the caller observes: success payload (text + suggested
output filename) or a failure message (surfaced via `alert` in the UI). -/
inductive ConvResult
  | success (text : String) (suggested : List Char)
  | failure (msg : String)
deriving DecidableEq, Repr

/-- Whether a `ConvResult` is a failure. -/
def ConvResult.isFailure : ConvResult → Bool
  | .success _ _ => false
  | .failure _ => true

/-- A source file: original filename plus content bytes.  The invoker uses
the name for the staging path and the suggested output name; the content is
what gets staged. -/
structure SourceFile where
  name : List Char
  content : List ℕ
deriving DecidableEq, Repr

/-- `App.vue` line 148: `const tempPath = '/tmp/' + filename`.  The staging
path is the string `/tmp/` followed by the original filename verbatim; no
sanitization or uniquification is applied. -/
def tempPath (filename : List Char) : List Char :=
  "/tmp/".data ++ filename

/-- The staging path used for a given source file (depends only on the
name, never on the content). -/
def stagedPath (f : SourceFile) : List Char :=
  tempPath f.name

/-- `App.vue` lines 163–165: `nameParts = name.split('.')`,
`if (nameParts.length > 1) nameParts.pop()`, `nameParts.join('.') + '.md'`.
JS `split` on the one-character separator `'.'` is `List.splitOn '.'`
(both return `[""]`, i.e. `[[]]`, on the empty string), `pop` on a list of
length > 1 is `dropLast`, and `join('.')` is `intercalate ['.']`. -/
def suggestedFilename (name : List Char) : List Char :=
  let nameParts := name.splitOn '.'
  let parts := if 1 < nameParts.length then nameParts.dropLast else nameParts
  List.intercalate ['.'] parts ++ ".md".data

/-- `App.vue` lines 141–175, the body of `startConversion` after the
environment is ready, acting on the Pyodide filesystem (a list of paths):

1. `py.FS.writeFile(tempPath, ...)` stages the file;
2. `convertFunc(tempPath)` runs the converter — if it THROWS, control
   jumps to the outer `catch`, so the `FS.unlink` on line 158 is never
   reached and the staged file stays in the filesystem;
3. on return, `FS.unlink(tempPath)` removes the staged file, then a falsy
   (empty) `markdown` value raises `"Conversion returned empty result"`,
   which the outer `catch` reports as a failure.

Returns the final filesystem and the observed result. -/
def startConversion (fs : List (List Char)) (f : SourceFile)
    (outcome : ConvOutcome) : List (List Char) × ConvResult :=
  let path := stagedPath f
  let fs1 := path :: fs
  match outcome with
  | .throws msg => (fs1, .failure msg)
  | .returns text =>
      let fs2 := fs1.erase path
      if text ≠ "" then
        (fs2, .success text (suggestedFilename f.name))
      else
        (fs2, .failure "Conversion returned empty result")

/-! ## Browser shape: environment provisioner
(`App.vue`, `loadPyodideEnvironment`) -/

/-- The provisioner's persistent state across calls.  `cache` is the
module-level `let pyodide: any = null` variable (an opaque handle, modelled
as a natural number).  `loadCount` counts invocations of `loadPyodide()`
(runtime construction work); `installCount` counts COMPLETED runs of the
package-installation steps (mock registration, `loadPackage`,
`micropip.install` of markitdown, wrapper registration). -/
structure ProvisionState where
  cache : Option ℕ
  loadCount : ℕ
  installCount : ℕ
deriving DecidableEq, Repr

/-- The state before the first call: `pyodide` is `null`, no work done. -/
def initialProvisionState : ProvisionState := ⟨none, 0, 0⟩

/-- `App.vue` lines 53–133, `loadPyodideEnvironment`, parameterised by the
behaviour of the outside world on THIS call:

* `loadResult` — what `await loadPyodide()` does (`some handle` on
  success, `none` if it throws);
* `stepsOk` — whether the subsequent package/installation steps (lines
  62–124) all succeed.  (The inner `try` around the optional
  `micropip.install` list swallows its own failures, so `stepsOk = false`
  means one of the non-swallowed steps failed.)

Faithful control flow: `if (pyodide) return pyodide` is the cached fast
path; otherwise `pyodide = await loadPyodide()` ASSIGNS THE MODULE-LEVEL
CACHE IMMEDIATELY (line 59), before any package installation, so a later
failing step leaves the half-initialised handle cached while the `catch`
rethrows `"Failed to initialize Python environment: ..."`. -/
def loadPyodideEnvironment (st : ProvisionState) (loadResult : Option ℕ)
    (stepsOk : Bool) : ProvisionState × Except String ℕ :=
  match st.cache with
  | some py => (st, .ok py)
  | none =>
    match loadResult with
    | none =>
        ({ st with loadCount := st.loadCount + 1 },
         .error "Failed to initialize Python environment")
    | some py =>
        if stepsOk then
          (⟨some py, st.loadCount + 1, st.installCount + 1⟩, .ok py)
        else
          (⟨some py, st.loadCount + 1, st.installCount⟩,
           .error "Failed to initialize Python environment")

/-- Run a sequence of `loadPyodideEnvironment` calls (each with its own
outside-world behaviour), threading the state; collect the results. -/
def runCalls : List (Option ℕ × Bool) → ProvisionState →
    ProvisionState × List (Except String ℕ)
  | [], st => (st, [])
  | (l, s) :: rest, st =>
      let step := loadPyodideEnvironment st l s
      let next := runCalls rest step.1
      (next.1, step.2 :: next.2)

/-! ## Server shape: the h3 event handler (`server/api/markitdown`) -/

/-- One uploaded file as `h3-formidable` hands it to the handler:
`filepath` (the temp path formidable staged the bytes at; `None` models a
falsy path) and `originalFilename` (may be absent). -/
structure UploadedFile where
  filepath : Option (List Char)
  originalFilename : Option (List Char)
deriving DecidableEq, Repr

/-- What `markitdown-js`'s `convert` returns when it does not throw: the
`result` object, possibly absent  (`null`/`undefined`), carrying
`textContent`. -/
structure SResult where
  textContent : String
deriving DecidableEq, Repr

/-- Behaviour of `await markitdown.convert(...)` on this request. -/
inductive ServerConv
  | throws (msg : String)
  | returns (result : Option SResult)
deriving DecidableEq, Repr

/-- The externally observable HTTP response: a plain return value maps to
a 200 response with the returned body; `createError` maps to its status
code and message. -/
inductive Response
  | ok (success : Bool) (textContent : String) (filename : Option (List Char))
  | err (statusCode : ℕ) (statusMessage : String)
deriving DecidableEq, Repr

/-- The HTTP status code of a response. -/
def Response.status : Response → ℕ
  | .ok _ _ _ => 200
  | .err c _ => c

/-- `maxFileSize: 100 * 1024 * 1024, // 100MB limit` passed to
`readFiles`. -/
def maxFileSize : ℕ := 100 * 1024 * 1024

/-- `const fileExtension = originalFilename ?
('.' + originalFilename.split('.').pop()) : undefined`.
A falsy `originalFilename` (absent or the empty string) yields no hint;
otherwise the hint is a dot followed by the LAST `split('.')` segment
(`pop` of a JS `split` result, which is always non-empty). -/
def fileExtension : Option (List Char) → Option (List Char)
  | none => none
  | some name =>
      if name = [] then none
      else some ('.' :: (name.splitOn '.').getLastD [])

/-- What the handler did with the execution environment on this request. -/
structure EnvTrace where
  /-- whether `new MarkItDown()` was ever constructed -/
  envTouched : Bool
  /-- `some hint` iff `convert` was invoked, carrying the `fileExtension`
  option it was passed -/
  hintPassed : Option (Option (List Char))
deriving DecidableEq, Repr

/-- Full output of one handler run: response, environment trace, and the
final server filesystem. -/
structure HandlerOut where
  response : Response
  trace : EnvTrace
  fs : List (List Char)
deriving DecidableEq, Repr

/-- The body of `defineEventHandler` AFTER `readFiles` returned, acting on
the server filesystem `fs` (which already contains the formidable-staged
temp file when a file part is present):

* no file part → `createError 400 "No file uploaded"` (thrown before any
  `MarkItDown` construction);
* falsy `filepath` → `createError 500` (also before the `try` block);
* otherwise `new MarkItDown()` is constructed and `convert(filePath,
  { fileExtension })` is awaited; a thrown error is caught and re-raised
  as `500 "Conversion failed: <message>"`; an absent result triggers the
  inner `createError 500 "Conversion returned empty result"` which the
  same `catch` rewraps; a present result is returned as
  `{ success: true, textContent, filename }` (an h3 200);
* the `finally` block (lines 60–75) only tests `fs.existsSync(filePath)` —
  the `fs.unlinkSync(filePath)` is commented out, so the filesystem is
  returned UNCHANGED on every path. -/
def defineEventHandler (fs : List (List Char)) (files : Option UploadedFile)
    (conv : ServerConv) : HandlerOut :=
  match files with
  | none => ⟨.err 400 "No file uploaded", ⟨false, none⟩, fs⟩
  | some f =>
    match f.filepath with
    | none => ⟨.err 500 "File upload failed, no path", ⟨false, none⟩, fs⟩
    | some _path =>
      let hint := fileExtension f.originalFilename
      match conv with
      | .throws msg =>
          ⟨.err 500 ("Conversion failed: " ++ msg), ⟨true, some hint⟩, fs⟩
      | .returns none =>
          ⟨.err 500 ("Conversion failed: " ++ "Conversion returned empty result"),
           ⟨true, some hint⟩, fs⟩
      | .returns (some r) =>
          ⟨.ok true r.textContent f.originalFilename, ⟨true, some hint⟩, fs⟩

/-- A multipart request as `readFiles` sees it: total upload size and the
`file` field (absent when the request carries no file part). -/
structure Upload where
  size : ℕ
  filePart : Option UploadedFile
deriving DecidableEq, Repr

/-- `readFiles(event, { maxFileSize: 100MB })`: formidable rejects the
request (throws, outside the handler's `try`) when the upload exceeds
`maxFileSize`; otherwise it stages the file part's bytes at its temp
`filepath` and hands the parsed files to the handler body.  Returns the
staged filesystem and the file part. -/
def readFiles (fs : List (List Char)) (u : Upload) :
    Except String (List (List Char) × Option UploadedFile) :=
  if maxFileSize < u.size then .error "maxFileSize exceeded"
  else
    match u.filePart with
    | none => .ok (fs, none)
    | some f =>
        match f.filepath with
        | none => .ok (fs, some f)
        | some p => .ok (p :: fs, some f)

/-- One whole request against the server shape: `readFiles` then the
handler body.  `Except.error` models the formidable size-limit rejection
propagating outside the handler. -/
def serverRequest (fs : List (List Char)) (u : Upload) (conv : ServerConv) :
    Except String HandlerOut :=
  match readFiles fs u with
  | .error e => .error e
  | .ok (fs1, files) => .ok (defineEventHandler fs1 files conv)

/-! ## UI helper: `formatSize` (identical in both shapes) -/

/-- `const sizes = ['B', 'KB', 'MB', 'GB']`. -/
def sizes : List String := ["B", "KB", "MB", "GB"]

/-- Rendering of `parseFloat((v).toFixed(2))` for the exact value
`n100 / 100`: `toFixed(2)` keeps two decimals, `parseFloat` drops
trailing zeros (and the dot when the fraction vanishes), and JS prints an
integral number without a decimal point. -/
def renderNum (n100 : ℕ) : String :=
  let ip := n100 / 100
  let fr := n100 % 100
  if fr = 0 then toString ip
  else if fr % 10 = 0 then toString ip ++ "." ++ toString (fr / 10)
  else if fr < 10 then toString ip ++ ".0" ++ toString fr
  else toString ip ++ "." ++ toString fr

/-- `formatSize` (App.vue lines 198–204) on a non-negative byte count:

* `if (bytes === 0) return '0 B'`;
* `i = Math.floor(Math.log(bytes) / Math.log(1024))` — for `bytes ≥ 1`
  this real-valued floor is exactly `Nat.log 1024 bytes` (the greatest `i`
  with `1024^i ≤ bytes`);
* `(bytes / 1024^i).toFixed(2)` rounds the exact quotient to the nearest
  hundredth (modelled half-up on the exact rational — the doubles involved
  are exact or far from ties at every input considered here), `parseFloat`
  strips trailing zeros;
* `sizes[i]` — an out-of-range index yields no valid unit (JS
  `undefined`), modelled as `none`: no well-formed `"<number> <unit>"`
  string is produced. -/
def formatSize (bytes : ℕ) : Option String :=
  if bytes = 0 then some "0 B"
  else
    let i := Nat.log 1024 bytes
    let p := 1024 ^ i
    let n100 := (bytes * 200 + p) / (2 * p)
    (sizes.get? i).map (fun u => renderNum n100 ++ " " ++ u)

/-- `formatSize` on an arbitrary integer input: a negative argument makes
`Math.log(bytes)` NaN, `Math.floor(NaN)` NaN, and `sizes[NaN]` undefined,
so no well-formed string is produced (`none`). -/
def formatSizeInt (bytes : ℤ) : Option String :=
  if bytes = 0 then some "0 B"
  else if bytes < 0 then none
  else formatSize bytes.toNat

/-! ## Helper lemmas -/

/-- Splitting a dot-free character list on `'.'` yields the list itself as
the single segment (JS `name.split('.') === [name]` when `name` has no
dot). -/
theorem splitOn_eq_single_of_not_mem {name : List Char} (h : '.' ∉ name) :
    name.splitOn '.' = [name] := by
  refine List.splitOnP_eq_single _ _ ?_
  intro x hx hbeq
  exact h (by rwa [eq_of_beq hbeq] at hx)

/-! ## Claims -/

/-- Claim C1 (code_bug): the claim says every conversion call removes the
staged input file before returning, on every exit path.  The code does
not: in the browser shape, when the converter call throws, control jumps
to the outer catch and the `FS.unlink` line is never reached, so the
staged file stays in the Pyodide filesystem; in the server shape the
`finally` block has its `fs.unlinkSync` commented out, so the
formidable-staged temp file survives even a successful conversion. -/
theorem staged_artifact_leak :
    stagedPath ⟨"doc.pdf".data, [0]⟩ ∈
      (startConversion [] ⟨"doc.pdf".data, [0]⟩ (.throws "converter raised")).1 ∧
    ∃ out, serverRequest [] ⟨17, some ⟨some "/tmp/upload_1".data, some "doc.pdf".data⟩⟩
        (.returns (some ⟨"# hi"⟩)) = .ok out ∧
      "/tmp/upload_1".data ∈ out.fs :=
  ⟨by decide, ⟨_, rfl, by decide⟩⟩

/-- Claim C2 (code_bug): the claim says a failed first-time construction
leaves no half-initialised environment cached and a later call re-runs
construction from scratch.  The code assigns the module-level cache
`pyodide = await loadPyodide()` BEFORE package installation, so when a
later step fails the call does raise the descriptive error, but the
half-initialised handle stays cached and the next call returns it
immediately (same state, `Except.ok`), with installation never completed
(`installCount = 0`). -/
theorem half_initialized_env_cached :
    (loadPyodideEnvironment initialProvisionState (some 7) false).2 =
      .error "Failed to initialize Python environment" ∧
    (loadPyodideEnvironment initialProvisionState (some 7) false).1.cache = some 7 ∧
    (loadPyodideEnvironment initialProvisionState (some 7) false).1.installCount = 0 ∧
    loadPyodideEnvironment (loadPyodideEnvironment initialProvisionState (some 7) false).1
        (some 8) true =
      ((loadPyodideEnvironment initialProvisionState (some 7) false).1, .ok 7) :=
  ⟨rfl, rfl, rfl, rfl⟩

/-- Claim C3, counterexample: in the server shape the handler only checks
`!result`; a PRESENT converter result whose `textContent` is the empty
string is returned as a 200 success payload carrying empty text, not as a
failure. -/
theorem server_empty_text_success :
    (defineEventHandler ["/tmp/up".data] (some ⟨some "/tmp/up".data, some "doc.pdf".data⟩)
      (.returns (some ⟨""⟩))).response = .ok true "" (some "doc.pdf".data) := by
  decide

/-- Claim C3 (corrected): empty-result handling as the code implements it.
The browser shape reports any empty converter text as the failure
`"Conversion returned empty result"`; the server shape reports a failure
only when the whole converter result object is absent (rewrapped by the
catch as a 500 `"Conversion failed: Conversion returned empty result"`) —
a present result with empty text is a success there (see the
counterexample). -/
theorem empty_result_is_failure (fs : List (List Char)) (f : SourceFile)
    (fs' : List (List Char)) (uf : UploadedFile) (p : List Char) :
    ((startConversion fs f (.returns "")).2 =
      .failure "Conversion returned empty result") ∧
    (uf.filepath = some p →
      (defineEventHandler fs' (some uf) (.returns none)).response =
        .err 500 ("Conversion failed: " ++ "Conversion returned empty result")) := by
  refine ⟨rfl, ?_⟩
  intro hp
  obtain ⟨fp, onm⟩ := uf
  cases hp
  rfl

/-- Witness for `empty_result_is_failure` at concrete inputs. -/
theorem empty_result_is_failure_witness :
    ((⟨some "/tmp/u".data, some "a.pdf".data⟩ : UploadedFile).filepath =
      some "/tmp/u".data) ∧
    ((startConversion [] ⟨"a.pdf".data, []⟩ (.returns "")).2 =
      .failure "Conversion returned empty result") ∧
    (defineEventHandler [] (some ⟨some "/tmp/u".data, some "a.pdf".data⟩)
        (.returns none)).response =
      .err 500 ("Conversion failed: " ++ "Conversion returned empty result") :=
  ⟨rfl,
   (empty_result_is_failure [] ⟨"a.pdf".data, []⟩ []
     ⟨some "/tmp/u".data, some "a.pdf".data⟩ "/tmp/u".data).1,
   (empty_result_is_failure [] ⟨"a.pdf".data, []⟩ []
     ⟨some "/tmp/u".data, some "a.pdf".data⟩ "/tmp/u".data).2 rfl⟩

/-- Claim C4, counterexample: the staging path is not collision-free and
not sanitized.  Two distinct source files sharing the name `doc.pdf` stage
to the same path, and a name containing a space and `?` keeps those
characters verbatim in the staging path. -/
theorem staging_collision_unsanitized :
    (⟨"doc.pdf".data, [0]⟩ : SourceFile) ≠ ⟨"doc.pdf".data, [1]⟩ ∧
    stagedPath ⟨"doc.pdf".data, [0]⟩ = stagedPath ⟨"doc.pdf".data, [1]⟩ ∧
    ' ' ∈ tempPath "my doc?.pdf".data ∧ '?' ∈ tempPath "my doc?.pdf".data :=
  ⟨by decide, rfl, by decide, by decide⟩

/-- Claim C4 (corrected): the staging path is `/tmp/` followed by the
original filename verbatim.  It is injective in the filename (so two
conversions collide exactly when the filenames are equal — content plays
no role), every suffix of the name (in particular its extension) is a
suffix of the staging path, and every character of the name survives
unchanged (no sanitization). -/
theorem tempPath_verbatim (n1 n2 name suffix : List Char) :
    (tempPath n1 = tempPath n2 ↔ n1 = n2) ∧
    (suffix <:+ name → suffix <:+ tempPath name) ∧
    (∀ c ∈ name, c ∈ tempPath name) := by
  refine ⟨⟨fun h => List.append_cancel_left h, fun h => by rw [h]⟩, ?_, ?_⟩
  · rintro ⟨t, rfl⟩
    exact ⟨"/tmp/".data ++ t, by simp [tempPath]⟩
  · intro c hc
    simp [tempPath, hc]

/-- Witness for `tempPath_verbatim` at concrete inputs. -/
theorem tempPath_verbatim_witness :
    (".pdf".data <:+ "a.pdf".data) ∧ ".pdf".data <:+ tempPath "a.pdf".data :=
  ⟨by decide,
   (tempPath_verbatim "a".data "b".data "a.pdf".data ".pdf".data).2.1 (by decide)⟩

/-- Claim C5 (confirmed): a successful first `loadPyodideEnvironment` call
returns the handle and records exactly one runtime construction and one
completed installation; from that state, ANY further sequence of calls
(whatever the outside world would do) leaves the state untouched — both
work counters stay at 1 — and every call returns the same cached handle. -/
theorem ensureReady_idempotent (e : ℕ) (outs : List (Option ℕ × Bool)) :
    (loadPyodideEnvironment initialProvisionState (some e) true).2 = .ok e ∧
    (loadPyodideEnvironment initialProvisionState (some e) true).1 = ⟨some e, 1, 1⟩ ∧
    runCalls outs ⟨some e, 1, 1⟩ = (⟨some e, 1, 1⟩, outs.map fun _ => .ok e) := by
  refine ⟨rfl, rfl, ?_⟩
  induction outs with
  | nil => rfl
  | cons o rest ih =>
      obtain ⟨l, s⟩ := o
      simp [runCalls, loadPyodideEnvironment, ih]

/-- Claim C6 (confirmed): the suggested output filename strips only the
last extension segment and appends `.md`.  Concretely `report.v2.pdf`
becomes `report.v2.md` and `README` becomes `README.md`; in general a
dot-free name gets `.md` appended to the whole name, and a name made of
two or more dot-free segments keeps all but the last segment. -/
theorem suggestedFilename_spec :
    suggestedFilename "report.v2.pdf".data = "report.v2.md".data ∧
    suggestedFilename "README".data = "README.md".data ∧
    (∀ name : List Char, '.' ∉ name →
      suggestedFilename name = name ++ ".md".data) ∧
    (∀ parts : List (List Char), 1 < parts.length →
      (∀ p ∈ parts, '.' ∉ p) →
      suggestedFilename (List.intercalate ['.'] parts) =
        List.intercalate ['.'] parts.dropLast ++ ".md".data) := by
  refine ⟨by decide, by decide, ?_, ?_⟩
  · intro name h
    simp [suggestedFilename, splitOn_eq_single_of_not_mem h, List.intercalate]
  · intro parts h1 h2
    have hne : parts ≠ [] := by rintro rfl; simp at h1
    simp [suggestedFilename, List.splitOn_intercalate parts '.' h2 hne, h1]

/-- Witness for `suggestedFilename_spec` at concrete inputs. -/
theorem suggestedFilename_spec_witness :
    ('.' ∉ "README".data) ∧
    (1 < ([['r'], ['p', 'd', 'f']] : List (List Char)).length) ∧
    suggestedFilename "README".data = "README".data ++ ".md".data ∧
    suggestedFilename (List.intercalate ['.'] [['r'], ['p', 'd', 'f']]) =
      List.intercalate ['.'] ([['r'], ['p', 'd', 'f']] : List (List Char)).dropLast ++
        ".md".data :=
  ⟨by decide, by decide,
   suggestedFilename_spec.2.2.1 "README".data (by decide),
   suggestedFilename_spec.2.2.2 [['r'], ['p', 'd', 'f']] (by decide) (by decide)⟩

/-- Claim C7, counterexample: for the extensionless filename `README` the
server handler invokes the converter WITH the fabricated format hint
`.README` (a dot followed by the whole name), not without a hint. -/
theorem hint_fabricated_for_extensionless :
    (defineEventHandler [] (some ⟨some "/tmp/up".data, some "README".data⟩)
      (.returns (some ⟨"x"⟩))).trace.hintPassed = some (some ".README".data) ∧
    some ".README".data ≠ (none : Option (List Char)) :=
  ⟨by decide, by decide⟩

/-- Claim C7 (corrected): the hint derivation as the code implements it.
No hint is passed only when the original filename is absent or empty (the
falsy check); a non-empty dot-free filename yields the fabricated hint
`'.'` followed by the WHOLE filename; a name made of dot-free segments
yields `'.'` followed by the last segment. -/
theorem fileExtension_spec (name : List Char) (parts : List (List Char)) :
    fileExtension none = none ∧
    fileExtension (some []) = none ∧
    (name ≠ [] → '.' ∉ name → fileExtension (some name) = some ('.' :: name)) ∧
    (List.intercalate ['.'] parts ≠ [] → parts ≠ [] → (∀ p ∈ parts, '.' ∉ p) →
      fileExtension (some (List.intercalate ['.'] parts)) =
        some ('.' :: parts.getLastD [])) := by
  refine ⟨rfl, rfl, ?_, ?_⟩
  · intro h1 h2
    simp [fileExtension, h1, splitOn_eq_single_of_not_mem h2]
  · intro h1 h2 h3
    simp [fileExtension, h1, List.splitOn_intercalate parts '.' h3 h2]

/-- Witness for `fileExtension_spec` at concrete inputs. -/
theorem fileExtension_spec_witness :
    ("README".data ≠ []) ∧ ('.' ∉ "README".data) ∧
    (List.intercalate ['.'] [['a'], ['b']] ≠ []) ∧
    fileExtension (some "README".data) = some ('.' :: "README".data) ∧
    fileExtension (some (List.intercalate ['.'] [['a'], ['b']])) =
      some ('.' :: ([['a'], ['b']] : List (List Char)).getLastD []) :=
  ⟨by decide, by decide, by decide,
   (fileExtension_spec "README".data [['a'], ['b']]).2.2.1 (by decide) (by decide),
   (fileExtension_spec "README".data [['a'], ['b']]).2.2.2 (by decide) (by decide)
     (by decide)⟩

/-- Claim C8 (confirmed): the server request handler is bounded by a
100 MB maximum upload size (oversize uploads are rejected by `readFiles`
before the handler body runs); a request with no file part gets a 400
client error without any environment interaction; a successful conversion
maps to a 200 response carrying `{success, textContent, filename}`; a
conversion failure maps to a 500 response carrying a descriptive message. -/
theorem server_handler_contract (fs : List (List Char)) (u : Upload)
    (f : UploadedFile) (conv conv2 : ServerConv) (r : SResult) (msg : String)
    (p : List Char) :
    maxFileSize = 100 * 1024 * 1024 ∧
    (u.size ≤ maxFileSize → u.filePart = none →
      serverRequest fs u conv = .ok ⟨.err 400 "No file uploaded", ⟨false, none⟩, fs⟩) ∧
    ((defineEventHandler fs none conv).response.status = 400 ∧
      (defineEventHandler fs none conv).trace.envTouched = false) ∧
    (f.filepath = some p →
      (defineEventHandler fs (some f) (.returns (some r))).response =
        .ok true r.textContent f.originalFilename ∧
      ((defineEventHandler fs (some f) (.returns (some r))).response).status = 200) ∧
    (f.filepath = some p →
      (defineEventHandler fs (some f) (.throws msg)).response =
        .err 500 ("Conversion failed: " ++ msg)) ∧
    (maxFileSize < u.size → serverRequest fs u conv2 = .error "maxFileSize exceeded") := by
  refine ⟨rfl, ?_, ⟨rfl, rfl⟩, ?_, ?_, ?_⟩
  · intro hsz hnone
    simp [serverRequest, readFiles, hnone, Nat.not_lt.mpr hsz, defineEventHandler]
  · intro hp
    obtain ⟨fp, onm⟩ := f
    cases hp
    exact ⟨rfl, rfl⟩
  · intro hp
    obtain ⟨fp, onm⟩ := f
    cases hp
    rfl
  · intro hsz
    simp [serverRequest, readFiles, hsz]

/-- Witness for `server_handler_contract` at concrete inputs. -/
theorem server_handler_contract_witness :
    ((10 : ℕ) ≤ maxFileSize) ∧ (maxFileSize < maxFileSize + 1) ∧
    serverRequest [] ⟨10, none⟩ (.returns none) =
      .ok ⟨.err 400 "No file uploaded", ⟨false, none⟩, []⟩ ∧
    ((defineEventHandler [] (some ⟨some "/tmp/u".data, some "a.pdf".data⟩)
        (.returns (some ⟨"# t"⟩))).response =
      .ok true "# t" (some "a.pdf".data)) ∧
    ((defineEventHandler [] (some ⟨some "/tmp/u".data, some "a.pdf".data⟩)
        (.throws "boom")).response = .err 500 ("Conversion failed: " ++ "boom")) ∧
    serverRequest [] ⟨maxFileSize + 1, none⟩ (.returns none) =
      .error "maxFileSize exceeded" :=
  ⟨by decide, Nat.lt_succ_self _,
   (server_handler_contract [] ⟨10, none⟩ ⟨some "/tmp/u".data, some "a.pdf".data⟩
     (.returns none) (.returns none) ⟨"# t"⟩ "boom" "/tmp/u".data).2.1
     (by decide) rfl,
   ((server_handler_contract [] ⟨10, none⟩ ⟨some "/tmp/u".data, some "a.pdf".data⟩
     (.returns none) (.returns none) ⟨"# t"⟩ "boom" "/tmp/u".data).2.2.2.1 rfl).1,
   (server_handler_contract [] ⟨10, none⟩ ⟨some "/tmp/u".data, some "a.pdf".data⟩
     (.returns none) (.returns none) ⟨"# t"⟩ "boom" "/tmp/u".data).2.2.2.2.1 rfl,
   (server_handler_contract [] ⟨maxFileSize + 1, none⟩
     ⟨some "/tmp/u".data, some "a.pdf".data⟩
     (.returns none) (.returns none) ⟨"# t"⟩ "boom" "/tmp/u".data).2.2.2.2.2
     (Nat.lt_succ_self _)⟩

/-- Claim C9 (confirmed): the UI size-formatting helper maps 0 bytes to
the string `0 B` and 1536 bytes to the string `1.5 KB`. -/
theorem formatSize_examples :
    formatSize 0 = some "0 B" ∧ formatSize 1536 = some "1.5 KB" := by
  refine ⟨rfl, ?_⟩
  have h : Nat.log 1024 1536 = 1 :=
    Nat.log_eq_of_pow_le_of_lt_pow (by norm_num) (by norm_num)
  simp only [formatSize, h]
  rfl

/-- Claim C10 (confirmed): `formatSize` is well defined exactly on 0 and
`1 ≤ bytes < 1024^4`.  In range, the computed unit index `Nat.log 1024
bytes` is below 4 (inside the four-element unit array) and the result is a
number followed by one of the units `B`, `KB`, `MB`, `GB`; at
`bytes ≥ 1024^4` the index is out of bounds so the unit lookup yields no
valid unit; for a negative input the logarithm is undefined — in both
cases no well-formed `"<number> <unit>"` string is produced. -/
theorem formatSize_range (b : ℤ) :
    (1 ≤ b → b < 1024 ^ 4 →
      Nat.log 1024 b.toNat < 4 ∧
      ∃ u ∈ sizes, ∃ numStr : String,
        formatSizeInt b = some (numStr ++ " " ++ u)) ∧
    ((1024 : ℤ) ^ 4 ≤ b → formatSizeInt b = none) ∧
    (b < 0 → formatSizeInt b = none) := by
  refine ⟨?_, ?_, ?_⟩
  · intro h1 h2
    have hb0 : b ≠ 0 := by omega
    have hbneg : ¬ b < 0 := by omega
    have htn : b.toNat ≠ 0 := by omega
    have htlt : b.toNat < 1024 ^ 4 := by
      have : (1024 : ℤ) ^ 4 = 1099511627776 := by norm_num
      omega
    have hlog : Nat.log 1024 b.toNat < 4 := Nat.log_lt_of_lt_pow htn htlt
    refine ⟨hlog, ?_⟩
    have hlen : Nat.log 1024 b.toNat < sizes.length := by
      simpa [sizes] using hlog
    refine ⟨sizes.get ⟨Nat.log 1024 b.toNat, hlen⟩, List.get_mem _ _ _, ?_⟩
    refine ⟨renderNum ((b.toNat * 200 + 1024 ^ Nat.log 1024 b.toNat) /
      (2 * 1024 ^ Nat.log 1024 b.toNat)), ?_⟩
    simp only [formatSizeInt, if_neg hb0, if_neg hbneg, formatSize, if_neg htn,
      List.get?_eq_get hlen]
    rfl
  · intro h
    have hpow : (1024 : ℤ) ^ 4 = 1099511627776 := by norm_num
    have hb0 : b ≠ 0 := by omega
    have hbneg : ¬ b < 0 := by omega
    have htn : b.toNat ≠ 0 := by omega
    have hle : 1024 ^ 4 ≤ b.toNat := by
      have h4 : (1024 : ℕ) ^ 4 = 1099511627776 := by norm_num
      omega
    have hlog : 4 ≤ Nat.log 1024 b.toNat :=
      Nat.le_log_of_pow_le (by norm_num) hle
    have hnone : sizes.get? (Nat.log 1024 b.toNat) = none := by
      refine List.get?_eq_none.mpr ?_
      simpa [sizes] using hlog
    simp only [formatSizeInt, if_neg hb0, if_neg hbneg, formatSize, if_neg htn,
      hnone, Option.map_none']
  · intro h
    have hb0 : b ≠ 0 := by omega
    simp [formatSizeInt, hb0, h]

/-- Witness for `formatSize_range` at concrete inputs. -/
theorem formatSize_range_witness :
    ((1 : ℤ) ≤ 1536 ∧ (1536 : ℤ) < 1024 ^ 4) ∧
    (Nat.log 1024 (1536 : ℤ).toNat < 4 ∧
      ∃ u ∈ sizes, ∃ numStr : String,
        formatSizeInt 1536 = some (numStr ++ " " ++ u)) ∧
    formatSizeInt ((1024 : ℤ) ^ 4) = none ∧
    formatSizeInt (-5) = none :=
  ⟨⟨by norm_num, by norm_num⟩,
   (formatSize_range 1536).1 (by norm_num) (by norm_num),
   (formatSize_range ((1024 : ℤ) ^ 4)).2.1 (le_refl _),
   (formatSize_range (-5)).2.2 (by norm_num)⟩

end Markitdown
